import Mathlib

/-!
Verification development for the pg-large-object client library.

The library is a thin facade over a database driver: every operation builds
one parameterized SQL statement and hands it to a query adapter together
with a callback.  We embed this shallowly:

* JavaScript values that flow through the public API (numbers, byte
  buffers, strings, null, undefined) are the inductive type `Value`.
* The query adapter (the external collaborator `this._query`) is a state
  transformer `Db sigma : Query -> sigma -> Except DbErr (List Row) x sigma`.
* Each library method is a Lean function translated line by line from the
  source file it embeds (noted on each definition).  The list of queries a
  call issued is returned explicitly so that statements about the number
  and content of adapter calls can be proved.
* Methods that can throw synchronously return an `Outcome`; methods that
  only ever report through their callback return a `QResult`.
-/

/-- A JavaScript value as it appears on the library's API surface:
numbers, Buffers (byte arrays), strings, booleans, null and undefined. -/
inductive Value where
  | num (n : Int)
  | buf (bytes : List Nat)
  | str (s : String)
  | bool (b : Bool)
  | null
  | undef
deriving DecidableEq

/-- JavaScript truthiness of a `Value` (0, empty string, false, null and
undefined are falsy; buffers are objects and hence always truthy). -/
def Value.truthy : Value → Bool
  | .num n => n != 0
  | .buf _ => true
  | .str s => s != ""
  | .bool b => b
  | .null => false
  | .undef => false

/-- JavaScript `Buffer.isBuffer`. -/
def Value.isBuffer : Value → Bool
  | .buf _ => true
  | _ => false

/-- The JavaScript expression `a || b`: `a` when truthy, otherwise `b`. -/
def jsOr (a b : Value) : Value :=
  if a.truthy then a else b

/-- The `.length` property: defined for buffers and strings, `undefined`
(modelled as `none`) for the other values. -/
def Value.jsLength : Value → Option Int
  | .buf bytes => some (bytes.length : Int)
  | .str s => some (s.length : Int)
  | _ => none

/-- JavaScript comparison `a < b` where `a` may be `undefined`
(a comparison with `undefined` is `NaN < b`, which is false). -/
def jsLtNum (a : Option Int) (b : Int) : Bool :=
  match a with
  | some x => decide (x < b)
  | none => false

/-- An error reported by the query adapter (a node-postgres error). -/
abbrev DbErr := String

/-- A parameterized statement as passed to the query adapter:
`{name: ..., text: ..., values: [...]}`. -/
structure Query where
  name : String
  text : String
  values : List Value
deriving DecidableEq

/-- One result row: named columns with their values. -/
abbrev Row := List (String × Value)

/-- The query adapter supplied by the database driver: executes one
statement against the driver state and yields rows or an error. -/
abbrev Db (σ : Type) := Query → σ → Except DbErr (List Row) × σ

/-- The JavaScript access `result.rows[0].col`; a missing row or column is
modelled as `undefined`. -/
def firstField (rows : List Row) (col : String) : Value :=
  match rows with
  | [] => Value.undef
  | r :: _ =>
    match r.lookup col with
    | some v => v
    | none => Value.undef

/-- Result of a callback-style method that cannot throw synchronously:
the queries it issued, the final driver state, and what it passed to its
callback (an error or a parsed value). -/
abbrev QResult (σ α : Type) := List Query × σ × Except DbErr α

/-- Result of a method that may throw synchronously before any query is
issued (the state is returned untouched in that case). -/
inductive Outcome (σ α : Type) where
  | thrown (msg : String) (s : σ)
  | normal (r : QResult σ α)

/-- The queries an `Outcome` issued (none when the method threw before
reaching the adapter). -/
def Outcome.trace {σ α : Type} : Outcome σ α → List Query
  | .thrown _ _ => []
  | .normal (tr, _, _) => tr

/-- Whether the method threw synchronously. -/
def Outcome.isThrown {σ α : Type} : Outcome σ α → Bool
  | .thrown _ _ => true
  | .normal _ => false

/-- The shared calling pattern of every method body: invoke
`this._query(q, function(err, result) { if (err) return callback(err);
callback(null, parse(result.rows)); })`. -/
def runQuery {σ α : Type} (db : Db σ) (s : σ) (q : Query)
    (parse : List Row → α) : QResult σ α :=
  match db q s with
  | (.error e, s') => ([q], s', .error e)
  | (.ok rows, s') => ([q], s', .ok (parse rows))

/-- An opened large object handle (src/unnamed/part_003, constructor
`LargeObject(query, oid, fd)`); the query function is passed separately in
this embedding. -/
structure LargeObject where
  oid : Value
  fd : Value
deriving DecidableEq

/-- Seek origin: from the beginning of the object. -/
def LargeObject.SEEK_SET : Int := 0

/-- Seek origin: from the current position. -/
def LargeObject.SEEK_CUR : Int := 1

/-- Seek origin: from the end of the object. -/
def LargeObject.SEEK_END : Int := 2

/-- The statement issued by `LargeObject.prototype.close`. -/
def closeQuery (fd : Value) : Query :=
  { name := "npg_lo_close", text := "SELECT lo_close($1) as ok", values := [fd] }

/-- The statement issued by `LargeObject.prototype.read`. -/
def loreadQuery (fd : Value) (length : Int) : Query :=
  { name := "npg_loread", text := "SELECT loread($1, $2) as data",
    values := [fd, .num length] }

/-- The statement issued by `LargeObject.prototype.write`. -/
def lowriteQuery (fd : Value) (buffer : Value) : Query :=
  { name := "npg_lowrite", text := "SELECT lowrite($1, $2)", values := [fd, buffer] }

/-- The statement issued by `LargeObject.prototype.seek`. -/
def seekQuery (fd : Value) (position ref : Int) : Query :=
  { name := "npg_lo_lseek64", text := "SELECT lo_lseek64($1, $2, $3) as location",
    values := [fd, .num position, .num ref] }

/-- The statement issued by `LargeObject.prototype.tell`. -/
def tellQuery (fd : Value) : Query :=
  { name := "npg_lo_tell64", text := "SELECT lo_tell64($1) as location", values := [fd] }

/-- The statement issued by `LargeObject.prototype.size`: a single query
whose nested subselects tell the current position, seek to the end (the
resulting offset is the size) and seek back to the recorded position. -/
def sizeQuery (fd : Value) : Query :=
  { name := "npg_size",
    text := "SELECT lo_lseek64($1, location, 0), seek.size FROM (SELECT lo_lseek64($1, 0, 2) AS SIZE, tell.location FROM (SELECT lo_tell64($1) AS location) tell) seek;",
    values := [fd] }

/-- The statement issued by `LargeObject.prototype.truncate`. -/
def truncateQuery (fd : Value) (length : Int) : Query :=
  { name := "npg_lo_truncate64", text := "SELECT lo_truncate64($1, $2)",
    values := [fd, .num length] }

/-- Embeds `LargeObject.prototype.close` (src/unnamed/part_003): issues the
close statement and reports only the error, if any, to the callback. -/
def LargeObject.close {σ : Type} (db : Db σ) (s : σ) (lo : LargeObject) :
    QResult σ Unit :=
  runQuery db s (closeQuery lo.fd) (fun _ => ())

/-- Embeds `LargeObject.prototype.read`: issues the loread statement and
passes `result.rows[0].data` to the callback. -/
def LargeObject.read {σ : Type} (db : Db σ) (s : σ) (lo : LargeObject)
    (length : Int) : QResult σ Value :=
  runQuery db s (loreadQuery lo.fd length) (fun rows => firstField rows "data")

/-- Embeds `LargeObject.prototype.write`: issues the lowrite statement with
the buffer verbatim; the callback receives only the error, if any. -/
def LargeObject.write {σ : Type} (db : Db σ) (s : σ) (lo : LargeObject)
    (buffer : Value) : QResult σ Unit :=
  runQuery db s (lowriteQuery lo.fd buffer) (fun _ => ())

/-- Embeds `LargeObject.prototype.seek`: issues the lseek statement and
passes `result.rows[0].location` to the callback. -/
def LargeObject.seek {σ : Type} (db : Db σ) (s : σ) (lo : LargeObject)
    (position ref : Int) : QResult σ Value :=
  runQuery db s (seekQuery lo.fd position ref) (fun rows => firstField rows "location")

/-- Embeds `LargeObject.prototype.tell`: issues the tell statement and
passes `result.rows[0].location` to the callback. -/
def LargeObject.tell {σ : Type} (db : Db σ) (s : σ) (lo : LargeObject) :
    QResult σ Value :=
  runQuery db s (tellQuery lo.fd) (fun rows => firstField rows "location")

/-- Embeds `LargeObject.prototype.size`: issues the single npg_size
statement and passes `result.rows[0].size` to the callback. -/
def LargeObject.size {σ : Type} (db : Db σ) (s : σ) (lo : LargeObject) :
    QResult σ Value :=
  runQuery db s (sizeQuery lo.fd) (fun rows => firstField rows "size")

/-- Embeds `LargeObject.prototype.truncate`: issues the truncate statement;
the callback receives only the error, if any. -/
def LargeObject.truncate {σ : Type} (db : Db σ) (s : σ) (lo : LargeObject)
    (length : Int) : QResult σ Unit :=
  runQuery db s (truncateQuery lo.fd length) (fun _ => ())

/-- Mode flag WRITE (src/lib/LargeObjectManager.js). -/
def LargeObjectManager.WRITE : Int := 0x00020000

/-- Mode flag READ. -/
def LargeObjectManager.READ : Int := 0x00040000

/-- Mode flag READWRITE, the bitwise OR of WRITE and READ. -/
def LargeObjectManager.READWRITE : Int := Int.lor 0x00020000 0x00040000

/-- The statement issued by `LargeObjectManager.prototype.open`. -/
def openQuery (oid : Value) (mode : Int) : Query :=
  { name := "npg_lo_open", text := "SELECT lo_open($1, $2) AS fd",
    values := [oid, .num mode] }

/-- The statement issued by `LargeObjectManager.prototype.create`; the mode
parameter is always READWRITE. -/
def createQuery : Query :=
  { name := "npg_lo_creat", text := "SELECT lo_creat($1) AS oid",
    values := [.num LargeObjectManager.READWRITE] }

/-- The statement issued by `LargeObjectManager.prototype.unlink`. -/
def unlinkQuery (oid : Value) : Query :=
  { name := "npg_lo_unlink", text := "SELECT lo_unlink($1) as ok", values := [oid] }

/-- Embeds `LargeObjectManager.prototype.open` (src/lib/LargeObjectManager.js
lines 74-92): a falsy oid throws synchronously before any query; otherwise
one lo_open statement is issued and the callback receives a new handle
built from `result.rows[0].fd`. -/
def LargeObjectManager.open {σ : Type} (db : Db σ) (s : σ) (oid : Value)
    (mode : Int) : Outcome σ LargeObject :=
  if !oid.truthy then
    .thrown "Illegal Argument" s
  else
    .normal (runQuery db s (openQuery oid mode)
      (fun rows => { oid := oid, fd := firstField rows "fd" }))

/-- Embeds `LargeObjectManager.prototype.create` (lines 122-134): issues
the lo_creat statement with the READWRITE mode constant and passes
`result.rows[0].oid` to the callback. -/
def LargeObjectManager.create {σ : Type} (db : Db σ) (s : σ) : QResult σ Value :=
  runQuery db s createQuery (fun rows => firstField rows "oid")

/-- Embeds `LargeObjectManager.prototype.unlink` (lines 156-170): a falsy
oid throws synchronously before any query; otherwise one lo_unlink
statement is issued and the callback receives only the error, if any. -/
def LargeObjectManager.unlink {σ : Type} (db : Db σ) (s : σ) (oid : Value) :
    Outcome σ Unit :=
  if !oid.truthy then
    .thrown "Illegal Argument" s
  else
    .normal (runQuery db s (unlinkQuery oid) (fun _ => ()))

theorem runQuery_trace {σ α : Type} (db : Db σ) (s : σ) (q : Query)
    (parse : List Row → α) : (runQuery db s q parse).1 = [q] := by
  unfold runQuery
  rcases db q s with ⟨r, s'⟩
  cases r <;> rfl

theorem runQuery_ok {σ α : Type} (db : Db σ) (s : σ) (q : Query)
    (parse : List Row → α) (rows : List Row) (s' : σ)
    (h : db q s = (.ok rows, s')) :
    runQuery db s q parse = ([q], s', .ok (parse rows)) := by
  unfold runQuery
  rw [h]

theorem runQuery_err {σ α : Type} (db : Db σ) (s : σ) (q : Query)
    (parse : List Row → α) (e : DbErr) (s' : σ)
    (h : db q s = (.error e, s')) :
    runQuery db s q parse = ([q], s', .error e) := by
  unfold runQuery
  rw [h]

/-- Observable actions of `ReadStream.prototype._read`'s callback:
`this.push(data)`, `this.push(null)` (end of stream) and
`this.emit('error', e)`. -/
inductive StreamEvent where
  | pushed (data : Value)
  | endOfStream
  | errorEmitted (e : DbErr)
deriving DecidableEq

/-- Result of one `_read` pull: either a synchronous throw, or the issued
queries together with the emitted stream events. -/
inductive ReadOutcome (σ : Type) where
  | thrown (msg : String) (s : σ)
  | events (trace : List Query) (s : σ) (evs : List StreamEvent)

/-- The queries a `_read` pull issued. -/
def ReadOutcome.trace {σ : Type} : ReadOutcome σ → List Query
  | .thrown _ _ => []
  | .events tr _ _ => tr

/-- A readable stream adapter (src/unnamed/part_002, constructor
`ReadStream(largeObject, bufferSize)`): stream options plus the bound
handle. -/
structure ReadStream where
  highWaterMark : Value
  encoding : Value
  objectMode : Bool
  largeObject : LargeObject
deriving DecidableEq

/-- Embeds the `ReadStream` constructor: `highWaterMark: bufferSize || 16384,
encoding: null, objectMode: false`. -/
def ReadStream.make (largeObject : LargeObject) (bufferSize : Value) : ReadStream :=
  { highWaterMark := jsOr bufferSize (.num 16384)
    encoding := .null
    objectMode := false
    largeObject := largeObject }

/-- Embeds `ReadStream.prototype._read(length)` (src/unnamed/part_002 lines
23-44): a non-positive length throws; otherwise one `handle.read(length)`
is issued; on error the stream emits the error; on success it pushes the
returned data and, when the data is shorter than requested, immediately
pushes null to end the stream. -/
def ReadStream.readImpl {σ : Type} (db : Db σ) (s : σ) (rs : ReadStream)
    (length : Int) : ReadOutcome σ :=
  if length ≤ 0 then
    .thrown "Illegal Argument" s
  else
    match LargeObject.read db s rs.largeObject length with
    | (tr, s', .error e) => .events tr s' [.errorEmitted e]
    | (tr, s', .ok data) =>
      .events tr s'
        (.pushed data ::
          (if jsLtNum data.jsLength length then [.endOfStream] else []))

/-- A writable stream adapter (src/unnamed/part_003 lines 537-545,
constructor `WriteStream(largeObject, bufferSize)`). -/
structure WriteStream where
  highWaterMark : Value
  decodeStrings : Bool
  objectMode : Bool
  largeObject : LargeObject
deriving DecidableEq

/-- Embeds the `WriteStream` constructor: `highWaterMark: bufferSize || 16384,
decodeStrings: true, objectMode: false`. -/
def WriteStream.make (largeObject : LargeObject) (bufferSize : Value) : WriteStream :=
  { highWaterMark := jsOr bufferSize (.num 16384)
    decodeStrings := true
    objectMode := false
    largeObject := largeObject }

/-- Embeds `WriteStream.prototype._write(chunk, encoding, callback)`
(src/unnamed/part_003 lines 549-558): a non-buffer chunk throws; otherwise
the chunk is forwarded verbatim to `handle.write` and the stream's
callback receives that write's completion. -/
def WriteStream.writeImpl {σ : Type} (db : Db σ) (s : σ) (ws : WriteStream)
    (chunk : Value) : Outcome σ Unit :=
  if !chunk.isBuffer then
    .thrown "Illegal Argument" s
  else
    .normal (LargeObject.write db s ws.largeObject chunk)

/-- Models the Writable framework driving `_write`: chunks are processed
strictly in order and the next chunk is handed to `_write` only after the
previous write's callback reported success. -/
def WriteStream.writeMany {σ : Type} (db : Db σ) (s : σ) (ws : WriteStream) :
    List Value → Outcome σ Unit
  | [] => .normal ([], s, .ok ())
  | chunk :: rest =>
    match WriteStream.writeImpl db s ws chunk with
    | .thrown msg s' => .thrown msg s'
    | .normal (tr, s', .error e) => .normal (tr, s', .error e)
    | .normal (tr, s', .ok _) =>
      match WriteStream.writeMany db s' ws rest with
      | .thrown msg s'' => .thrown msg s''
      | .normal (tr2, s'', r) => .normal (tr ++ tr2, s'', r)

/-- Embeds `LargeObject.prototype.getReadableStream`. -/
def LargeObject.getReadableStream (lo : LargeObject) (bufferSize : Value) :
    ReadStream :=
  ReadStream.make lo bufferSize

/-- Embeds `LargeObject.prototype.getWritableStream`. -/
def LargeObject.getWritableStream (lo : LargeObject) (bufferSize : Value) :
    WriteStream :=
  WriteStream.make lo bufferSize

/-- Why a promise built by `promiseFromCallback` was rejected: either the
wrapped function threw synchronously inside the Promise executor (the
ECMAScript Promise constructor turns that throw into a rejection), or the
node-style callback reported an error. -/
inductive RejectReason where
  | thrownValue (msg : String)
  | callbackError (e : DbErr)
deriving DecidableEq

/-- Settled state of a promise. -/
inductive PromiseResult (α : Type) where
  | resolved (v : α)
  | rejected (r : RejectReason)

/-- Embeds `promiseFromCallback(fn, self)` (src/unnamed/part_001 lines
40-63) together with the Promise-constructor semantics: the executor runs
`fn.call(self, callback)` synchronously; a throw inside it rejects the
promise; `callback(error)` rejects; `callback(null, v)` resolves with
`v`. -/
def promiseFromCallback {σ α : Type} (out : Outcome σ α) :
    PromiseResult α × List Query × σ :=
  match out with
  | .thrown msg s => (.rejected (.thrownValue msg), [], s)
  | .normal (tr, s, .error e) => (.rejected (.callbackError e), tr, s)
  | .normal (tr, s, .ok v) => (.resolved v, tr, s)

/-- Embeds `LargeObjectManager.prototype.openAsync` (src/lib/
LargeObjectManager.js lines 106-112): wraps the callback-style open in a
promise. -/
def LargeObjectManager.openAsync {σ : Type} (db : Db σ) (s : σ) (oid : Value)
    (mode : Int) : PromiseResult LargeObject × List Query × σ :=
  promiseFromCallback (LargeObjectManager.open db s oid mode)

/-- Embeds `LargeObjectManager.prototype.unlinkAsync` (lines 176-182). -/
def LargeObjectManager.unlinkAsync {σ : Type} (db : Db σ) (s : σ) (oid : Value) :
    PromiseResult Unit × List Query × σ :=
  promiseFromCallback (LargeObjectManager.unlink db s oid)

/-- A warning printed with `console.error`: the fixed message together with
the close error that triggered it. -/
abbrev Warning := String × DbErr

/-- The warning logged when closing a large object after streaming fails. -/
def closeWarning (e : DbErr) : Warning :=
  ("Warning: closing a large object failed:", e)

/-- Embeds the listener both convenience operations register for the
stream's natural-completion event (src/lib/LargeObjectManager.js lines
214-226 and 277-286): `obj.close(function(err) { if (err) console.error(
'Warning: closing a large object failed:', err); })`.  The close error is
only logged; the listener has no channel back to the caller. -/
def autoCloseHandler {σ : Type} (obj : LargeObject) (db : Db σ) (s : σ) :
    List Query × σ × List Warning :=
  match LargeObject.close db s obj with
  | (tr, s', .error e) => (tr, s', [closeWarning e])
  | (tr, s', .ok _) => (tr, s', [])

/-- A readable stream as handed to the caller of
`openAndReadableStream`: the stream itself plus the listeners the
operation registered on it (only the end event gets one). -/
structure RegisteredReadStream (σ : Type) where
  stream : ReadStream
  onEnd : Option (Db σ → σ → List Query × σ × List Warning)
  onError : Option (Db σ → σ → List Query × σ × List Warning)

/-- A writable stream as handed to the caller of
`createAndWritableStream`: the stream plus the registered listeners (only
the finish event gets one). -/
structure RegisteredWriteStream (σ : Type) where
  stream : WriteStream
  onFinish : Option (Db σ → σ → List Query × σ × List Warning)
  onError : Option (Db σ → σ → List Query × σ × List Warning)

/-- Embeds `LargeObjectManager.prototype.openAndReadableStream`
(src/lib/LargeObjectManager.js lines 196-231), after the optional-argument
shuffle: open read-only, measure the size, build the readable stream,
register the auto-close listener on the end event only, and deliver
`(size, stream)` to the callback. -/
def LargeObjectManager.openAndReadableStream {σ : Type} (db : Db σ) (s : σ)
    (oid : Value) (bufferSize : Value) :
    Outcome σ (Value × RegisteredReadStream σ) :=
  match LargeObjectManager.open db s oid LargeObjectManager.READ with
  | .thrown msg s1 => .thrown msg s1
  | .normal (tr1, s1, .error e) => .normal (tr1, s1, .error e)
  | .normal (tr1, s1, .ok obj) =>
    match LargeObject.size db s1 obj with
    | (tr2, s2, .error e) => .normal (tr1 ++ tr2, s2, .error e)
    | (tr2, s2, .ok size) =>
      .normal (tr1 ++ tr2, s2, .ok (size,
        { stream := LargeObject.getReadableStream obj bufferSize
          onEnd := some (autoCloseHandler obj)
          onError := none }))

/-- Embeds `LargeObjectManager.prototype.createAndWritableStream` (lines
258-291), after the optional-argument shuffle: create, open the new oid
for write, build the writable stream, register the auto-close listener on
the finish event only, and deliver `(oid, stream)` to the callback. -/
def LargeObjectManager.createAndWritableStream {σ : Type} (db : Db σ) (s : σ)
    (bufferSize : Value) :
    Outcome σ (Value × RegisteredWriteStream σ) :=
  match LargeObjectManager.create db s with
  | (tr1, s1, .error e) => .normal (tr1, s1, .error e)
  | (tr1, s1, .ok oid) =>
    match LargeObjectManager.open db s1 oid LargeObjectManager.WRITE with
    | .thrown msg s2 => .thrown msg s2
    | .normal (tr2, s2, .error e) => .normal (tr1 ++ tr2, s2, .error e)
    | .normal (tr2, s2, .ok obj) =>
      .normal (tr1 ++ tr2, s2, .ok (oid,
        { stream := LargeObject.getWritableStream obj bufferSize
          onFinish := some (autoCloseHandler obj)
          onError := none }))

/-- Server-side state of one open large-object descriptor: the descriptor
number, the object's bytes and the current position.  Modelled from the
spec: the server executing the fixed lo_tell64/lo_lseek64 procedures is
the external database collaborator, not part of this repository. -/
structure LoState where
  fd : Int
  data : List Nat
  pos : Int
deriving DecidableEq

/-- A query adapter backed by the server model, implementing the two
statements the position claims need.  The npg_size statement's text (see
`sizeQuery`) evaluates its subselects inside out: `lo_tell64(fd)` records
the current position, `lo_lseek64(fd, 0, 2)` seeks to the end and yields
the size, and the outer `lo_lseek64(fd, location, 0)` seeks back to the
recorded position (an lo_lseek64 to a negative offset fails). -/
def loServerDb : Db LoState := fun q st =>
  if q.name = "npg_lo_tell64" ∧ q.values = [Value.num st.fd] then
    (.ok [[("location", Value.num st.pos)]], st)
  else if q.name = "npg_size" ∧ q.values = [Value.num st.fd] then
    let location := st.pos
    let size : Int := (st.data.length : Int)
    let atEnd : LoState := { st with pos := size }
    if location < 0 then
      (.error "ERROR: invalid seek offset", atEnd)
    else
      (.ok [[("lo_lseek64", Value.num location), ("size", Value.num size)]],
        { atEnd with pos := location })
  else
    (.error "unsupported statement", st)

theorem Outcome.trace_normal {σ α : Type} (r : QResult σ α) :
    (Outcome.normal r).trace = r.1 := rfl

/-- C3: for every falsy/zero oid, open and unlink throw a usage error
synchronously with the driver state untouched and no query issued; for
every truthy oid no synchronous error is raised and exactly the one
expected statement is issued. -/
theorem spec_C3 {σ : Type} (db : Db σ) (s : σ) (badOid goodOid : Value)
    (mode : Int) (hbad : badOid.truthy = false) (hgood : goodOid.truthy = true) :
    LargeObjectManager.open db s badOid mode = .thrown "Illegal Argument" s ∧
    LargeObjectManager.unlink db s badOid = .thrown "Illegal Argument" s ∧
    (LargeObjectManager.open db s goodOid mode).isThrown = false ∧
    (LargeObjectManager.open db s goodOid mode).trace = [openQuery goodOid mode] ∧
    (LargeObjectManager.unlink db s goodOid).isThrown = false ∧
    (LargeObjectManager.unlink db s goodOid).trace = [unlinkQuery goodOid] := by
  refine ⟨?_, ?_, ?_, ?_, ?_, ?_⟩ <;>
    simp [LargeObjectManager.open, LargeObjectManager.unlink, hbad, hgood,
      Outcome.isThrown, Outcome.trace_normal, runQuery_trace]

theorem spec_C3_witness :
    LargeObjectManager.open (fun _ s => (.ok [], s)) () (Value.num 0) 262144 =
      .thrown "Illegal Argument" () ∧
    LargeObjectManager.unlink (fun _ s => (.ok [], s)) () (Value.num 0) =
      .thrown "Illegal Argument" () ∧
    (LargeObjectManager.open (fun _ s => (.ok [], s)) () (Value.num 5) 262144).isThrown = false ∧
    (LargeObjectManager.open (fun _ s => (.ok [], s)) () (Value.num 5) 262144).trace =
      [openQuery (Value.num 5) 262144] ∧
    (LargeObjectManager.unlink (fun _ s => (.ok [], s)) () (Value.num 5)).isThrown = false ∧
    (LargeObjectManager.unlink (fun _ s => (.ok [], s)) () (Value.num 5)).trace =
      [unlinkQuery (Value.num 5)] :=
  spec_C3 (fun _ s => (.ok [], s)) () (Value.num 0) (Value.num 5) 262144 rfl rfl

/-- C6: every logical operation issues exactly one call to the query
adapter per invocation (given a truthy oid where one is required). -/
theorem spec_C6 {σ : Type} (db : Db σ) (s : σ) (lo : LargeObject) (oid : Value)
    (mode : Int) (buffer : Value) (position ref len : Int)
    (h : oid.truthy = true) :
    (LargeObjectManager.open db s oid mode).trace.length = 1 ∧
    (LargeObjectManager.create db s).1.length = 1 ∧
    (LargeObjectManager.unlink db s oid).trace.length = 1 ∧
    (LargeObject.read db s lo len).1.length = 1 ∧
    (LargeObject.write db s lo buffer).1.length = 1 ∧
    (LargeObject.seek db s lo position ref).1.length = 1 ∧
    (LargeObject.tell db s lo).1.length = 1 ∧
    (LargeObject.size db s lo).1.length = 1 ∧
    (LargeObject.truncate db s lo len).1.length = 1 ∧
    (LargeObject.close db s lo).1.length = 1 := by
  refine ⟨?_, ?_, ?_, ?_, ?_, ?_, ?_, ?_, ?_, ?_⟩ <;>
    simp [LargeObjectManager.open, LargeObjectManager.unlink,
      LargeObjectManager.create, LargeObject.read, LargeObject.write,
      LargeObject.seek, LargeObject.tell, LargeObject.size,
      LargeObject.truncate, LargeObject.close, h,
      Outcome.trace_normal, runQuery_trace]

theorem spec_C6_witness :
    (LargeObjectManager.open (fun _ s => (.ok [], s)) () (Value.num 4) 131072).trace.length = 1 ∧
    (LargeObjectManager.create (fun _ s => (.ok [], s)) ()).1.length = 1 ∧
    (LargeObjectManager.unlink (fun _ s => (.ok [], s)) () (Value.num 4)).trace.length = 1 ∧
    (LargeObject.read (fun _ s => (.ok [], s)) () ⟨Value.num 4, Value.num 1⟩ 10).1.length = 1 ∧
    (LargeObject.write (fun _ s => (.ok [], s)) () ⟨Value.num 4, Value.num 1⟩ (Value.buf [1])).1.length = 1 ∧
    (LargeObject.seek (fun _ s => (.ok [], s)) () ⟨Value.num 4, Value.num 1⟩ 0 0).1.length = 1 ∧
    (LargeObject.tell (fun _ s => (.ok [], s)) () ⟨Value.num 4, Value.num 1⟩).1.length = 1 ∧
    (LargeObject.size (fun _ s => (.ok [], s)) () ⟨Value.num 4, Value.num 1⟩).1.length = 1 ∧
    (LargeObject.truncate (fun _ s => (.ok [], s)) () ⟨Value.num 4, Value.num 1⟩ 0).1.length = 1 ∧
    (LargeObject.close (fun _ s => (.ok [], s)) () ⟨Value.num 4, Value.num 1⟩).1.length = 1 :=
  spec_C6 (fun _ s => (.ok [], s)) () ⟨Value.num 4, Value.num 1⟩ (Value.num 4)
    131072 (Value.buf [1]) 0 0 10 rfl

/-- C7: a pull with requested length at most zero throws the usage error
synchronously, without issuing any read. -/
theorem spec_C7 {σ : Type} (db : Db σ) (s : σ) (rs : ReadStream) (length : Int)
    (h : length ≤ 0) :
    ReadStream.readImpl db s rs length = .thrown "Illegal Argument" s := by
  simp [ReadStream.readImpl, h]

theorem spec_C7_witness :
    ReadStream.readImpl (fun _ s => (.ok [], s)) ()
      (ReadStream.make ⟨Value.num 4, Value.num 1⟩ Value.undef) 0 =
      .thrown "Illegal Argument" () :=
  spec_C7 (fun _ s => (.ok [], s)) ()
    (ReadStream.make ⟨Value.num 4, Value.num 1⟩ Value.undef) 0 (by decide)

/-- C8: create always issues its single lo_creat statement with the
READWRITE mode constant (the bitwise OR 0x00020000 OR 0x00040000 =
393216) and on success delivers only the new oid to the callback. -/
theorem spec_C8 {σ : Type} (db : Db σ) (s : σ) (rows : List Row) (s' : σ)
    (hdb : db createQuery s = (.ok rows, s')) :
    LargeObjectManager.create db s = ([createQuery], s', .ok (firstField rows "oid")) ∧
    createQuery.values = [Value.num (Int.lor 0x00020000 0x00040000)] ∧
    LargeObjectManager.READWRITE = 393216 := by
  refine ⟨runQuery_ok db s createQuery _ rows s' hdb, rfl, by decide⟩

theorem spec_C8_witness :
    LargeObjectManager.create (fun _ s => (.ok [[("oid", Value.num 9)]], s)) () =
      ([createQuery], (), .ok (firstField [[("oid", Value.num 9)]] "oid")) ∧
    createQuery.values = [Value.num (Int.lor 0x00020000 0x00040000)] ∧
    LargeObjectManager.READWRITE = 393216 :=
  spec_C8 (fun _ s => (.ok [[("oid", Value.num 9)]], s)) ()
    [[("oid", Value.num 9)]] () rfl

/-- C9: the promise-returning variants deliver the falsy-oid usage error
as a rejected promise (the synchronous throw happens inside the Promise
executor and becomes a rejection), with no query issued and the driver
state untouched. -/
theorem spec_C9 {σ : Type} (db : Db σ) (s : σ) (oid : Value) (mode : Int)
    (h : oid.truthy = false) :
    LargeObjectManager.openAsync db s oid mode =
      (.rejected (.thrownValue "Illegal Argument"), [], s) ∧
    LargeObjectManager.unlinkAsync db s oid =
      (.rejected (.thrownValue "Illegal Argument"), [], s) := by
  constructor <;>
    simp [LargeObjectManager.openAsync, LargeObjectManager.unlinkAsync,
      LargeObjectManager.open, LargeObjectManager.unlink,
      promiseFromCallback, h]

theorem spec_C9_witness :
    LargeObjectManager.openAsync (fun _ s => (.ok [], s)) () (Value.num 0) 262144 =
      (.rejected (.thrownValue "Illegal Argument"), [], ()) ∧
    LargeObjectManager.unlinkAsync (fun _ s => (.ok [], s)) () (Value.num 0) =
      (.rejected (.thrownValue "Illegal Argument"), [], ()) :=
  spec_C9 (fun _ s => (.ok [], s)) () (Value.num 0) 262144 rfl

/-- C10: a falsy bufferSize argument to either stream constructor yields
the default high-water mark of 16384 bytes; a truthy one is used as
given. -/
theorem spec_C10 (lo : LargeObject) (v w : Value)
    (hv : v.truthy = false) (hw : w.truthy = true) :
    (LargeObject.getReadableStream lo v).highWaterMark = .num 16384 ∧
    (LargeObject.getWritableStream lo v).highWaterMark = .num 16384 ∧
    (LargeObject.getReadableStream lo w).highWaterMark = w ∧
    (LargeObject.getWritableStream lo w).highWaterMark = w := by
  refine ⟨?_, ?_, ?_, ?_⟩ <;>
    simp [LargeObject.getReadableStream, LargeObject.getWritableStream,
      ReadStream.make, WriteStream.make, jsOr, hv, hw]

theorem spec_C10_witness :
    (LargeObject.getReadableStream ⟨Value.num 4, Value.num 1⟩ (Value.num 0)).highWaterMark = .num 16384 ∧
    (LargeObject.getWritableStream ⟨Value.num 4, Value.num 1⟩ (Value.num 0)).highWaterMark = .num 16384 ∧
    (LargeObject.getReadableStream ⟨Value.num 4, Value.num 1⟩ (Value.num 100)).highWaterMark = Value.num 100 ∧
    (LargeObject.getWritableStream ⟨Value.num 4, Value.num 1⟩ (Value.num 100)).highWaterMark = Value.num 100 :=
  spec_C10 ⟨Value.num 4, Value.num 1⟩ (Value.num 0) (Value.num 100) rfl rfl

/-- C1: a pull with requested length L > 0 issues exactly the one
loread(L) statement; on success the returned bytes are pushed downstream
and, when strictly fewer than L bytes came back, end-of-stream is
signalled immediately after the push (even for a non-empty result); the
singleton trace shows no further read is attempted. -/
theorem spec_C1 {σ : Type} (db : Db σ) (s : σ) (rs : ReadStream) (L : Int)
    (rows : List Row) (s' : σ) (bs : List Nat)
    (hL : 0 < L)
    (hdb : db (loreadQuery rs.largeObject.fd L) s = (.ok rows, s'))
    (hdata : firstField rows "data" = .buf bs) :
    ReadStream.readImpl db s rs L =
      .events [loreadQuery rs.largeObject.fd L] s'
        (.pushed (.buf bs) ::
          (if (bs.length : Int) < L then [.endOfStream] else [])) := by
  unfold ReadStream.readImpl LargeObject.read
  rw [if_neg (not_le.mpr hL), runQuery_ok db s _ _ rows s' hdb]
  simp [hdata, jsLtNum, Value.jsLength]

theorem spec_C1_witness :
    ReadStream.readImpl (fun _ s => (.ok [[("data", Value.buf [7, 8])]], s)) ()
      (ReadStream.make ⟨Value.num 4, Value.num 1⟩ Value.undef) 5 =
      .events [loreadQuery (Value.num 1) 5] ()
        (.pushed (.buf [7, 8]) ::
          (if ((2 : Int) < 5) then [.endOfStream] else [])) :=
  spec_C1 (fun _ s => (.ok [[("data", Value.buf [7, 8])]], s)) ()
    (ReadStream.make ⟨Value.num 4, Value.num 1⟩ Value.undef) 5
    [[("data", Value.buf [7, 8])]] () [7, 8] (by decide) rfl rfl

/-- A query adapter that answers every statement successfully. -/
def Db.alwaysOk {σ : Type} (db : Db σ) : Prop :=
  ∀ q st, ∃ rows st', db q st = (Except.ok rows, st')

theorem writeImpl_buf_ok {σ : Type} (db : Db σ) (s : σ) (ws : WriteStream)
    (c : List Nat) (rows : List Row) (s' : σ)
    (hdb : db (lowriteQuery ws.largeObject.fd (Value.buf c)) s = (.ok rows, s')) :
    WriteStream.writeImpl db s ws (Value.buf c) =
      .normal ([lowriteQuery ws.largeObject.fd (Value.buf c)], s', .ok ()) := by
  unfold WriteStream.writeImpl LargeObject.write
  rw [runQuery_ok db s _ _ rows s' hdb]
  rfl

theorem writeMany_allOk {σ : Type} (db : Db σ) (hok : Db.alwaysOk db)
    (ws : WriteStream) : ∀ (chunks : List (List Nat)) (s : σ), ∃ s' : σ,
    WriteStream.writeMany db s ws (chunks.map Value.buf) =
      .normal (chunks.map (fun c => lowriteQuery ws.largeObject.fd (Value.buf c)),
        s', .ok ()) := by
  intro chunks
  induction chunks with
  | nil => exact fun s => ⟨s, rfl⟩
  | cons c cs ih =>
    intro s
    obtain ⟨rows, s1, hdb⟩ := hok (lowriteQuery ws.largeObject.fd (.buf c)) s
    obtain ⟨s2, hrec⟩ := ih s1
    refine ⟨s2, ?_⟩
    show WriteStream.writeMany db s ws (Value.buf c :: cs.map Value.buf) = _
    unfold WriteStream.writeMany
    rw [writeImpl_buf_ok db s ws c rows s1 hdb]
    simp [hrec]

/-- C5: a non-buffer chunk is rejected synchronously as a usage error with
no write issued; a buffer chunk is forwarded verbatim as exactly one
lowrite statement carrying the same bytes; and a sequence of buffer
chunks (each accepted only after the previous write completed) produces
exactly one write per chunk, in order, with no splitting, coalescing,
dropping or reordering. -/
theorem spec_C5 {σ : Type} (db : Db σ) (s : σ) (ws : WriteStream)
    (nonbuf : Value) (bs : List Nat) (chunks : List (List Nat))
    (hnb : nonbuf.isBuffer = false) (hok : Db.alwaysOk db) :
    WriteStream.writeImpl db s ws nonbuf = .thrown "Illegal Argument" s ∧
    (WriteStream.writeImpl db s ws (.buf bs)).trace =
      [lowriteQuery ws.largeObject.fd (.buf bs)] ∧
    (WriteStream.writeMany db s ws (chunks.map Value.buf)).trace =
      chunks.map (fun c => lowriteQuery ws.largeObject.fd (.buf c)) := by
  refine ⟨?_, ?_, ?_⟩
  · simp [WriteStream.writeImpl, hnb]
  · obtain ⟨rows, s', hdb⟩ := hok (lowriteQuery ws.largeObject.fd (.buf bs)) s
    rw [writeImpl_buf_ok db s ws bs rows s' hdb]
    rfl
  · obtain ⟨s', h⟩ := writeMany_allOk db hok ws chunks s
    rw [h]
    rfl

theorem spec_C5_witness :
    WriteStream.writeImpl (fun _ s => (.ok [], s)) ()
      (WriteStream.make ⟨Value.num 4, Value.num 1⟩ Value.undef) (Value.num 3) =
      .thrown "Illegal Argument" () ∧
    (WriteStream.writeImpl (fun _ s => (.ok [], s)) ()
      (WriteStream.make ⟨Value.num 4, Value.num 1⟩ Value.undef) (.buf [5, 6])).trace =
      [lowriteQuery (Value.num 1) (.buf [5, 6])] ∧
    (WriteStream.writeMany (fun _ s => (.ok [], s)) ()
      (WriteStream.make ⟨Value.num 4, Value.num 1⟩ Value.undef)
      ([[1], [2, 3]].map Value.buf)).trace =
      [[1], [2, 3]].map (fun c => lowriteQuery (Value.num 1) (.buf c)) :=
  spec_C5 (fun _ s => (.ok [], s)) ()
    (WriteStream.make ⟨Value.num 4, Value.num 1⟩ Value.undef)
    (Value.num 3) [5, 6] [[1], [2, 3]] rfl (fun _ st => ⟨[], st, rfl⟩)

/-- C4: against the server model, a successful size() returns the object's
total byte count and leaves the position exactly where it was, so a tell()
immediately after size() returns the same position as a tell() immediately
before. -/
theorem spec_C4 (st : LoState) (oidv : Value) (h : 0 ≤ st.pos) :
    LargeObject.size loServerDb st ⟨oidv, .num st.fd⟩ =
      ([sizeQuery (.num st.fd)], st, .ok (.num (st.data.length : Int))) ∧
    LargeObject.tell loServerDb st ⟨oidv, .num st.fd⟩ =
      ([tellQuery (.num st.fd)], st, .ok (.num st.pos)) := by
  constructor
  · unfold LargeObject.size runQuery loServerDb
    have h1 : ¬((sizeQuery (Value.num st.fd)).name = "npg_lo_tell64" ∧
        (sizeQuery (Value.num st.fd)).values = [Value.num st.fd]) := by
      simp [sizeQuery]
    rw [if_neg h1, if_pos ⟨rfl, rfl⟩, if_neg (not_lt.mpr h)]
    rfl
  · unfold LargeObject.tell runQuery loServerDb
    rw [if_pos ⟨rfl, rfl⟩]
    rfl

theorem spec_C4_witness :
    LargeObject.size loServerDb ⟨5, [10, 11, 12], 1⟩ ⟨Value.num 9, .num 5⟩ =
      ([sizeQuery (.num 5)], ⟨5, [10, 11, 12], 1⟩, .ok (.num 3)) ∧
    LargeObject.tell loServerDb ⟨5, [10, 11, 12], 1⟩ ⟨Value.num 9, .num 5⟩ =
      ([tellQuery (.num 5)], ⟨5, [10, 11, 12], 1⟩, .ok (.num 1)) :=
  spec_C4 ⟨5, [10, 11, 12], 1⟩ (Value.num 9) (by decide)

/-- C2: the auto-close listener registered by both convenience operations
only logs a warning when the close fails (it has no channel back to the
caller, whose callback already received the successful result); the
listener is registered for the natural-completion event only, with no
listener on the error event, so a stream error never triggers the
automatic close. -/
theorem spec_C2 {σ : Type} (db : Db σ) (sEnd sEnd' : σ) (obj : LargeObject)
    (e : DbErr) (s0 : σ) (oid bufferSize : Value)
    (tr : List Query) (s2 : σ) (size : Value) (reg : RegisteredReadStream σ)
    (tw : List Query) (s3 : σ) (oidv : Value) (wreg : RegisteredWriteStream σ)
    (hclose : db (closeQuery obj.fd) sEnd = (.error e, sEnd'))
    (hread : LargeObjectManager.openAndReadableStream db s0 oid bufferSize =
      .normal (tr, s2, .ok (size, reg)))
    (hwrite : LargeObjectManager.createAndWritableStream db s0 bufferSize =
      .normal (tw, s3, .ok (oidv, wreg))) :
    autoCloseHandler obj db sEnd = ([closeQuery obj.fd], sEnd', [closeWarning e]) ∧
    reg.onEnd = some (autoCloseHandler reg.stream.largeObject) ∧
    reg.onError = none ∧
    wreg.onFinish = some (autoCloseHandler wreg.stream.largeObject) ∧
    wreg.onError = none := by
  have hr : reg.onEnd = some (autoCloseHandler reg.stream.largeObject) ∧
      reg.onError = none := by
    unfold LargeObjectManager.openAndReadableStream at hread
    split at hread
    · simp at hread
    · simp at hread
    · split at hread
      · simp at hread
      · simp only [Outcome.normal.injEq, Prod.mk.injEq, Except.ok.injEq] at hread
        obtain ⟨-, -, -, hregeq⟩ := hread
        subst hregeq
        exact ⟨rfl, rfl⟩
  have hw : wreg.onFinish = some (autoCloseHandler wreg.stream.largeObject) ∧
      wreg.onError = none := by
    unfold LargeObjectManager.createAndWritableStream at hwrite
    split at hwrite
    · simp at hwrite
    · split at hwrite
      · simp at hwrite
      · simp at hwrite
      · simp only [Outcome.normal.injEq, Prod.mk.injEq, Except.ok.injEq] at hwrite
        obtain ⟨-, -, -, hregeq⟩ := hwrite
        subst hregeq
        exact ⟨rfl, rfl⟩
  refine ⟨?_, hr.1, hr.2, hw.1, hw.2⟩
  unfold autoCloseHandler LargeObject.close
  rw [runQuery_err db sEnd _ _ e sEnd' hclose]

/-- A test adapter for the auto-close scenario: every statement succeeds
except lo_close, which fails. -/
def dbC2 : Db Unit := fun q s =>
  if q.name = "npg_lo_close" then (.error "close failed", s)
  else (.ok [[("fd", Value.num 1), ("oid", Value.num 2), ("size", Value.num 3)]], s)

/-- The registered readable stream produced by the C2 test scenario. -/
def regC2 : RegisteredReadStream Unit :=
  { stream := LargeObject.getReadableStream ⟨Value.num 7, Value.num 1⟩ Value.undef
    onEnd := some (autoCloseHandler ⟨Value.num 7, Value.num 1⟩)
    onError := none }

/-- The registered writable stream produced by the C2 test scenario. -/
def wregC2 : RegisteredWriteStream Unit :=
  { stream := LargeObject.getWritableStream ⟨Value.num 2, Value.num 1⟩ Value.undef
    onFinish := some (autoCloseHandler ⟨Value.num 2, Value.num 1⟩)
    onError := none }

theorem spec_C2_witness :
    autoCloseHandler ⟨Value.num 7, Value.num 1⟩ dbC2 () =
      ([closeQuery (Value.num 1)], (), [closeWarning "close failed"]) ∧
    regC2.onEnd = some (autoCloseHandler regC2.stream.largeObject) ∧
    regC2.onError = none ∧
    wregC2.onFinish = some (autoCloseHandler wregC2.stream.largeObject) ∧
    wregC2.onError = none :=
  spec_C2 dbC2 () () ⟨Value.num 7, Value.num 1⟩ "close failed" ()
    (Value.num 7) Value.undef
    [openQuery (Value.num 7) LargeObjectManager.READ, sizeQuery (Value.num 1)]
    () (Value.num 3) regC2
    [createQuery, openQuery (Value.num 2) LargeObjectManager.WRITE]
    () (Value.num 2) wregC2
    rfl rfl rfl
